import Mathlib

/-! Verification of the Smart-Shamba normalization-and-ranking engine and its
data loaders.  Raw observations are embedded with exact rationals (`ℚ`) in
place of Python floats; random draws (`random.uniform(a, b)`) become
explicit parameters constrained to the interval `[a, b]`; timestamps and
raw-JSON pass-through fields are omitted as they carry no logic.

The per-dimension normalizer, composite scorer and ranker only appear in
the repository through the dashboard's column names and documentation
(the dbt models are not part of the source tree), so those components are
modelled from the specification and marked as such below.
-/

namespace SmartShamba

/-! Vegetation loader (from mage_load_vegetation.py). -/

/-- Embedded from `classify_vegetation_health` in mage_load_vegetation.py:
the four-bucket NDVI cascade, evaluated lowest threshold first. -/
def classify_vegetation_health (ndvi : ℚ) : String :=
  if ndvi < 0.2 then "Bare/Very Poor"
  else if ndvi < 0.5 then "Sparse"
  else if ndvi < 0.7 then "Moderate"
  else "Dense/Healthy"

/-! Rounding.  Python's `round(x, n)` rounds half to even.  On exact rationals this is
`roundHalfEven (x * 10^n) / 10^n`. -/

/-- Round a rational to the nearest integer, ties to even
(Python's rounding mode). -/
def roundHalfEven (q : ℚ) : ℤ :=
  if q - ⌊q⌋ = 1/2 then (if ⌊q⌋ % 2 = 0 then ⌊q⌋ else ⌊q⌋ + 1) else round q

/-- `round(x, 2)` from Python, on exact rationals. -/
def round2 (x : ℚ) : ℚ := (roundHalfEven (x * 100) : ℚ) / 100

/-! Price loader (from mage_load_prices.py). -/

/-- Crop price ranges (UGX per kg), the `CROPS` table of
mage_load_prices.py: `(name, min, max)`. -/
def CROPS : List (String × ℚ × ℚ) :=
  [("Maize", 800, 1500),
   ("Beans", 2000, 3500),
   ("Cassava", 500, 1000),
   ("Sweet Potato", 600, 1200),
   ("Coffee", 3000, 5000),
   ("Banana (Matoke)", 300, 800)]

/-- The `DISTRICTS` list of mage_load_prices.py. -/
def DISTRICTS : List String := ["Kampala", "Mbale", "Gulu", "Mbarara"]

/-- One row of the `raw_prices` table (timestamp/raw_json omitted). -/
structure PriceRecord where
  district : String
  crop : String
  price_ugx_per_kg : ℚ
  price_7days_ago : ℚ
  price_change_pct : ℚ
  market_source : String
deriving DecidableEq

/-- The body of the per-crop loop of `load_price_data`
(mage_load_prices.py lines 53-78).  The three `random.uniform` draws are
passed in: `base ∈ [min, max]`, `seasonal ∈ [0.8, 1.2]`,
`trend ∈ [0.9, 1.1]`. -/
def mkPriceRecord (district crop : String) (base seasonal trend : ℚ) :
    PriceRecord :=
  { district := district
    crop := crop
    price_ugx_per_kg := round2 (base * seasonal)
    price_7days_ago := round2 (base * seasonal * trend)
    price_change_pct := round2
      (((base * seasonal - base * seasonal * trend) /
        (base * seasonal * trend)) * 100)
    market_source := "Simulated Market Data" }

/-- The raw (pre-rounding) percent change computed at line 61 of
mage_load_prices.py: `((current - prior) / prior) * 100` with
`current = base * seasonal` and `prior = current * trend`. -/
def rawPctChange (base seasonal trend : ℚ) : ℚ :=
  ((base * seasonal - base * seasonal * trend) /
    (base * seasonal * trend)) * 100

/-! Loader return values (all three mage loaders).  Each loader wraps every per-row fetch/generation in `try/except: continue`
(a failed row is skipped), then unconditionally returns
`{'status': 'success', 'records_loaded': len(records)}`.  The fallible
per-row step is embedded as an `Option`-valued function. -/

/-- The dict returned by each loader (timestamp omitted). -/
structure LoadResult where
  status : String
  records_loaded : ℕ
deriving DecidableEq

/-- One row of `raw_weather` (mage_load_weather.py; timestamp/raw_json
omitted). -/
structure WeatherRecord where
  district : String
  temperature : ℚ
  humidity : ℚ
  rainfall : ℚ
  weather_condition : String

/-- One row of `raw_vegetation` (mage_load_vegetation.py;
timestamp/raw_json omitted). -/
structure VegetationRecord where
  district : String
  ndvi_value : ℚ
  ndvi_14days_ago : ℚ
  vegetation_health : String
  soil_moisture_pct : ℚ

/-- `load_weather_data` of mage_load_weather.py: per-district fetch may
fail (`except: continue`); the return dict always reports success and the
count of records generated. -/
def load_weather_data (fetch : String → Option WeatherRecord) :
    LoadResult × List WeatherRecord :=
  let records := DISTRICTS.filterMap fetch
  ({ status := "success", records_loaded := records.length }, records)

/-- `load_price_data` of mage_load_prices.py: the generation step runs
for every (district, crop) pair inside `try/except: continue`; the return
dict always reports success and the count of records generated. -/
def load_price_data (gen : String → String → Option PriceRecord) :
    LoadResult × List PriceRecord :=
  let records := DISTRICTS.flatMap
    (fun d => (CROPS.map (fun c => c.1)).filterMap (gen d))
  ({ status := "success", records_loaded := records.length }, records)

/-- `load_vegetation_data` of mage_load_vegetation.py: per-district
generation inside `try/except: continue`; the return dict always reports
success and the count of records generated. -/
def load_vegetation_data (fetch : String → Option VegetationRecord) :
    LoadResult × List VegetationRecord :=
  let records := DISTRICTS.filterMap fetch
  ({ status := "success", records_loaded := records.length }, records)

/-! Composite scorer (modelled from the spec). -/

/-- Modelled from the spec: the fixed weights of §4.2 — weather 0.40,
vegetation 0.35, market 0.25.  The scoring/weighting implementation is
absent from the source tree (only the dashboard's "40/35/25" split in
streamlit_app.py lines 118-125 documents it). -/
def weightWeather : ℚ := 0.40

/-- Modelled from the spec: vegetation weight of §4.2. -/
def weightVegetation : ℚ := 0.35

/-- Modelled from the spec: market weight of §4.2. -/
def weightMarket : ℚ := 0.25

/-- Modelled from the spec: the unclamped weighted sum
`Σ(weight_i × subscore_i)` of §4.2. -/
def weightedSum (w v m : ℚ) : ℚ :=
  weightWeather * w + weightVegetation * v + weightMarket * m

/-- Modelled from the spec: clamping a score into `[0, 10]` (§4.2). -/
def clampScore (x : ℚ) : ℚ := max 0 (min 10 x)

/-- Modelled from the spec: the overall score of §4.2 — weighted sum of
the three sub-scores, clamped to `[0, 10]`. -/
def overallScore (w v m : ℚ) : ℚ := clampScore (weightedSum w v m)

/-- Modelled from the spec: the category threshold cascade of §4.2,
inclusive lower bounds, evaluated highest first. -/
def recommendationCategory (s : ℚ) : String :=
  if 8 ≤ s then "Highly Recommended"
  else if 6 ≤ s then "Recommended"
  else if 4 ≤ s then "Consider"
  else "Not Recommended"

/-! Ranker (modelled from the spec).  §4.3/§9: sort by a total-order composite key (overall score descending,
market score descending, crop name ascending), then one linear pass
assigning dense ranks by detecting key changes. -/

/-- Modelled from the spec: one scored crop entering the ranker of §4.3
(the fields the composite key reads). -/
structure CropScore where
  crop : String
  overall : ℚ
  market : ℚ
deriving DecidableEq

/-- Modelled from the spec: the composite sort key of §9 —
`(score desc, secondary-score desc, name asc)`, realised by negating the
scores inside a lexicographic product. -/
def sortKey (c : CropScore) : Lex (ℚ × Lex (ℚ × String)) :=
  toLex (-c.overall, toLex (-c.market, c.crop))

/-- Modelled from the spec: the ranker's total order of §4.3. -/
def keyLE (a b : CropScore) : Prop := sortKey a ≤ sortKey b

instance : DecidableRel keyLE :=
  fun a b => inferInstanceAs (Decidable (sortKey a ≤ sortKey b))

instance : IsTotal CropScore keyLE :=
  ⟨fun a b => le_total (sortKey a) (sortKey b)⟩

instance : IsTrans CropScore keyLE :=
  ⟨fun _ _ _ h h2 => le_trans h h2⟩

/-- Modelled from the spec: two crops compare equal under the composite
key (a "tie" for ranking purposes). -/
def sameKey (a b : CropScore) : Prop :=
  a.overall = b.overall ∧ a.market = b.market ∧ a.crop = b.crop

instance sameKeyDec (a b : CropScore) : Decidable (sameKey a b) :=
  inferInstanceAs (Decidable (_ ∧ _ ∧ _))

/-- Modelled from the spec: the linear rank-assignment pass of §9 over
the tail of the sorted list — `prev` is the previous crop, `r` its rank;
a key change increments the rank by one, a tie repeats it. -/
def ranksFrom (prev : CropScore) (r : ℕ) :
    List CropScore → List (CropScore × ℕ)
  | [] => []
  | c :: cs =>
    (c, if sameKey prev c then r else r + 1) ::
      ranksFrom c (if sameKey prev c then r else r + 1) cs

/-- Modelled from the spec: dense rank assignment over an
already-sorted list; the first crop gets rank 1. -/
def assignRanks : List CropScore → List (CropScore × ℕ)
  | [] => []
  | c :: cs => (c, 1) :: ranksFrom c 1 cs

/-- Modelled from the spec: the ranker of §4.3 — sort by the composite
key, then assign dense ranks. -/
def rankCrops (l : List CropScore) : List (CropScore × ℕ) :=
  assignRanks (l.insertionSort keyLE)

/-! Per-dimension data-quality defaulting (modelled from the spec). -/

/-- Modelled from the spec: one raw input row for a (district, crop)
pair, carrying the fields the data-quality checks of §7 read. -/
structure RawCropRow where
  district : String
  crop : String
  price_current : ℚ
  price_prior : ℚ
  ndvi : ℚ
deriving DecidableEq

/-- Modelled from the spec: market-dimension normalization guarded by
the §7 DataQuality check — a zero/negative prior price marks the
dimension invalid and defaults its sub-score to the neutral 5.0; `curve`
is the configurable price-level/trend curve of §4.1.  Returns the
sub-score and the data-quality flag. -/
def marketScoreChecked (curve : ℚ → ℚ → ℚ) (price_current price_prior : ℚ) :
    ℚ × Bool :=
  if price_prior ≤ 0 then (5, true) else (curve price_current price_prior, false)

/-- Modelled from the spec: vegetation-dimension normalization guarded
by the §7 DataQuality check — NDVI outside `[-1, 1]` marks the dimension
invalid and defaults its sub-score to the neutral 5.0; `curve` is the
configurable bucket/soil-moisture curve of §4.1. -/
def vegScoreChecked (curve : ℚ → ℚ) (ndvi : ℚ) : ℚ × Bool :=
  if ndvi < -1 ∨ 1 < ndvi then (5, true) else (curve ndvi, false)

/-- Modelled from the spec: one produced row of §7 — the two checked
sub-scores plus the data-quality flag that records any defaulting. -/
structure CheckedRow where
  district : String
  crop : String
  market_score : ℚ
  vegetation_score : ℚ
  data_quality_flag : Bool
deriving DecidableEq

/-- Modelled from the spec: producing the checked row for one raw input
row (§7: the row is produced in every case, flagged when any dimension
was defaulted). -/
def processRow (mcurve : ℚ → ℚ → ℚ) (vcurve : ℚ → ℚ) (row : RawCropRow) :
    CheckedRow :=
  { district := row.district
    crop := row.crop
    market_score := (marketScoreChecked mcurve row.price_current row.price_prior).1
    vegetation_score := (vegScoreChecked vcurve row.ndvi).1
    data_quality_flag :=
      (marketScoreChecked mcurve row.price_current row.price_prior).2 ||
        (vegScoreChecked vcurve row.ndvi).2 }

/-- Modelled from the spec: processing a batch of raw rows — every row
yields exactly one output row (never dropped). -/
def processRows (mcurve : ℚ → ℚ → ℚ) (vcurve : ℚ → ℚ)
    (rows : List RawCropRow) : List CheckedRow :=
  rows.map (processRow mcurve vcurve)

/-- Modelled from the spec: the core scoring-and-ranking computation for
one district (§5) — score each crop's three sub-scores, then rank.
Input: `(crop name, weather, vegetation, market)` sub-score tuples. -/
def runCore (inputs : List (String × ℚ × ℚ × ℚ)) : List (CropScore × ℕ) :=
  rankCrops (inputs.map fun i =>
    { crop := i.1, overall := overallScore i.2.1 i.2.2.1 i.2.2.2,
      market := i.2.2.2 })

/-- Adjacent-pair rank discipline in the ranker's output: a tie on the
composite key repeats the previous rank, a key change increments it
by exactly one (dense ranking, no gaps). -/
def rankStep (p q : CropScore × ℕ) : Prop :=
  (sameKey p.1 q.1 → q.2 = p.2) ∧ (¬ sameKey p.1 q.1 → q.2 = p.2 + 1)

/-! Helper lemmas. -/

theorem weightedSum_nonneg {w v m : ℚ} (hw0 : 0 ≤ w) (hv0 : 0 ≤ v)
    (hm0 : 0 ≤ m) : 0 ≤ weightedSum w v m := by
  unfold weightedSum weightWeather weightVegetation weightMarket
  linarith

theorem weightedSum_le_ten {w v m : ℚ} (hw1 : w ≤ 10) (hv1 : v ≤ 10)
    (hm1 : m ≤ 10) : weightedSum w v m ≤ 10 := by
  unfold weightedSum weightWeather weightVegetation weightMarket
  linarith

theorem overallScore_eq_weightedSum {w v m : ℚ} (hw0 : 0 ≤ w) (hw1 : w ≤ 10)
    (hv0 : 0 ≤ v) (hv1 : v ≤ 10) (hm0 : 0 ≤ m) (hm1 : m ≤ 10) :
    overallScore w v m = weightedSum w v m := by
  unfold overallScore clampScore
  rw [min_eq_right (weightedSum_le_ten hw1 hv1 hm1),
    max_eq_right (weightedSum_nonneg hw0 hv0 hm0)]

theorem ranksFrom_map_fst (prev : CropScore) (r : ℕ) (cs : List CropScore) :
    (ranksFrom prev r cs).map Prod.fst = cs := by
  induction cs generalizing prev r with
  | nil => rfl
  | cons c cs ih => simp [ranksFrom, ih]

theorem rankCrops_map_fst (l : List CropScore) :
    (rankCrops l).map Prod.fst = l.insertionSort keyLE := by
  unfold rankCrops
  cases h : l.insertionSort keyLE with
  | nil => simp [assignRanks]
  | cons c cs => simp [assignRanks, ranksFrom_map_fst]

theorem chain'_ranksFrom (cs : List CropScore) (prev : CropScore) (r : ℕ) :
    List.Chain' rankStep ((prev, r) :: ranksFrom prev r cs) := by
  induction cs generalizing prev r with
  | nil => simp [ranksFrom]
  | cons c cs ih =>
    rw [ranksFrom]
    refine List.chain'_cons.mpr ⟨⟨fun h => ?_, fun h => ?_⟩, ih c _⟩
    · simp [if_pos h]
    · simp [if_neg h]

theorem ranksFrom_snd_of_chain_ne (cs : List CropScore) (prev : CropScore)
    (r : ℕ) (h : List.Chain (fun a b => ¬ sameKey a b) prev cs) :
    (ranksFrom prev r cs).map Prod.snd = List.range' (r + 1) cs.length := by
  induction cs generalizing prev r with
  | nil => rfl
  | cons c cs ih =>
    rcases h with _ | ⟨hne, hch⟩
    rw [ranksFrom, if_neg hne]
    simp only [List.map_cons, List.length_cons, List.range']
    exact congrArg _ (by simpa [if_neg hne] using ih c (r + 1) hch)

theorem roundHalfEven_ge_floor (q : ℚ) : ⌊q⌋ ≤ roundHalfEven q := by
  unfold roundHalfEven
  split_ifs with h1 h2
  · exact le_refl _
  · omega
  · rw [round_eq]
    exact Int.floor_le_floor (by linarith)

theorem round2_pos {x : ℚ} (hx : 1 ≤ x) : 0 < round2 x := by
  unfold round2
  have h1 : (100 : ℤ) ≤ ⌊x * 100⌋ := Int.le_floor.mpr (by push_cast; linarith)
  have h2 : (100 : ℤ) ≤ roundHalfEven (x * 100) :=
    le_trans h1 (roundHalfEven_ge_floor _)
  have h3 : (0 : ℚ) < ((roundHalfEven (x * 100) : ℤ) : ℚ) := by
    exact_mod_cast lt_of_lt_of_le (show (0:ℤ) < 100 by norm_num) h2
  exact div_pos h3 (by norm_num)

/-! Claim theorems. -/

/-- C1: for sub-scores in `[0,10]` the composite scorer computes
`0.40*w + 0.35*v + 0.25*m`; on district Kampala, Maize (8,7,6) scores
7.15 and Beans (6,9,5) scores 6.8, both "Recommended", with Maize
ranked 1 and Beans ranked 2. -/
theorem composite_scorer_weighted_formula_kampala :
    ∀ w v m : ℚ, 0 ≤ w → w ≤ 10 → 0 ≤ v → v ≤ 10 → 0 ≤ m → m ≤ 10 →
      overallScore w v m = 0.40 * w + 0.35 * v + 0.25 * m ∧
      overallScore 8 7 6 = 7.15 ∧
      recommendationCategory (overallScore 8 7 6) = "Recommended" ∧
      overallScore 6 9 5 = 6.8 ∧
      recommendationCategory (overallScore 6 9 5) = "Recommended" ∧
      runCore [("Maize", 8, 7, 6), ("Beans", 6, 9, 5)] =
        [(⟨"Maize", 7.15, 6⟩, 1), (⟨"Beans", 6.8, 5⟩, 2)] := by
  intro w v m hw0 hw1 hv0 hv1 hm0 hm1
  have h8 : overallScore 8 7 6 = 7.15 := by
    norm_num [overallScore, weightedSum, clampScore, weightWeather,
      weightVegetation, weightMarket]
  have h6 : overallScore 6 9 5 = 6.8 := by
    norm_num [overallScore, weightedSum, clampScore, weightWeather,
      weightVegetation, weightMarket]
  refine ⟨?_, h8, ?_, h6, ?_, ?_⟩
  · rw [overallScore_eq_weightedSum hw0 hw1 hv0 hv1 hm0 hm1]
    unfold weightedSum weightWeather weightVegetation weightMarket
    ring
  · rw [h8]; norm_num [recommendationCategory]
  · rw [h6]; norm_num [recommendationCategory]
  · norm_num [runCore, rankCrops, assignRanks, ranksFrom, List.insertionSort,
      List.orderedInsert, keyLE, sortKey, sameKey, Prod.Lex.le_iff,
      overallScore, weightedSum, clampScore, weightWeather,
      weightVegetation, weightMarket]

/-- C1 witness: the theorem applied at sub-scores (8, 7, 6). -/
theorem composite_scorer_weighted_formula_kampala_witness :
    ((0:ℚ) ≤ 8 ∧ (8:ℚ) ≤ 10 ∧ (0:ℚ) ≤ 7 ∧ (7:ℚ) ≤ 10 ∧
      (0:ℚ) ≤ 6 ∧ (6:ℚ) ≤ 10) ∧
    overallScore 8 7 6 = 0.40 * 8 + 0.35 * 7 + 0.25 * 6 :=
  ⟨by norm_num,
    (composite_scorer_weighted_formula_kampala 8 7 6 (by norm_num)
      (by norm_num) (by norm_num) (by norm_num) (by norm_num)
      (by norm_num)).1⟩

/-- C2: `classify_vegetation_health` realises exactly the four half-open
NDVI buckets, with the stated boundary values. -/
theorem vegetation_health_bucket_boundaries :
    (∀ x : ℚ,
      (classify_vegetation_health x = "Bare/Very Poor" ↔ x < 0.2) ∧
      (classify_vegetation_health x = "Sparse" ↔ 0.2 ≤ x ∧ x < 0.5) ∧
      (classify_vegetation_health x = "Moderate" ↔ 0.5 ≤ x ∧ x < 0.7) ∧
      (classify_vegetation_health x = "Dense/Healthy" ↔ 0.7 ≤ x)) ∧
    classify_vegetation_health 0.2 = "Sparse" ∧
    classify_vegetation_health 0.5 = "Moderate" ∧
    classify_vegetation_health 0.7 = "Dense/Healthy" ∧
    classify_vegetation_health 0.19999 = "Bare/Very Poor" := by
  refine ⟨fun x => ?_, by norm_num [classify_vegetation_health],
    by norm_num [classify_vegetation_health],
    by norm_num [classify_vegetation_health],
    by norm_num [classify_vegetation_health]⟩
  unfold classify_vegetation_health
  split_ifs with h1 h2 h3 <;>
    refine ⟨?_, ?_, ?_, ?_⟩ <;>
    constructor <;>
    intro h <;>
    first
      | rfl
      | linarith
      | exact ⟨by linarith, by linarith⟩
      | exact absurd h (by decide)

/-- C3: the ranker orders crops by the composite key (overall score
descending, then market score descending, then crop name ascending),
drops or duplicates nothing, starts at rank 1, assigns dense ranks
(ties share a rank, a key change adds exactly one), and on all-distinct
overall scores produces exactly the ranks 1..N. -/
theorem ranker_dense_rank_assignment :
    ∀ l : List CropScore, l ≠ [] →
      (∀ a b : CropScore, keyLE a b ↔
        (b.overall < a.overall ∨ (a.overall = b.overall ∧
          (b.market < a.market ∨ (a.market = b.market ∧ a.crop ≤ b.crop))))) ∧
      ((rankCrops l).map Prod.fst).Sorted keyLE ∧
      ((rankCrops l).map Prod.fst).Perm l ∧
      (∃ c rest, rankCrops l = (c, 1) :: rest) ∧
      List.Chain' rankStep (rankCrops l) ∧
      ((l.map CropScore.overall).Pairwise (· ≠ ·) →
        (rankCrops l).map Prod.snd = List.range' 1 l.length) := by
  intro l hne
  have hperm := List.perm_insertionSort keyLE l
  have hsne : l.insertionSort keyLE ≠ [] := by
    intro h
    rw [h] at hperm
    exact hne hperm.nil_eq.symm
  obtain ⟨c, cs, hcons⟩ := List.exists_cons_of_ne_nil hsne
  refine ⟨?_, ?_, ?_, ?_, ?_, ?_⟩
  · intro a b
    simp [keyLE, sortKey, Prod.Lex.le_iff, neg_lt_neg_iff, neg_inj]
  · rw [rankCrops_map_fst]
    exact List.sorted_insertionSort keyLE l
  · rw [rankCrops_map_fst]
    exact hperm
  · exact ⟨c, ranksFrom c 1 cs, by rw [rankCrops, hcons, assignRanks]⟩
  · rw [rankCrops, hcons, assignRanks]
    exact chain'_ranksFrom cs c 1
  · intro hdist
    have hdist2 : (l.insertionSort keyLE).Pairwise
        (fun a b => a.overall ≠ b.overall) := by
      rw [List.pairwise_map] at hdist
      exact (hperm.pairwise_iff fun h => h.symm).mpr hdist
    have hneq : (l.insertionSort keyLE).Pairwise (fun a b => ¬ sameKey a b) :=
      hdist2.imp fun h hk => h hk.1
    have hch : List.Chain (fun a b => ¬ sameKey a b) c cs := by
      have hc' := hneq.chain'
      rw [hcons] at hc'
      exact hc'
    have hlen : cs.length + 1 = l.length := by
      have hl := hperm.length_eq
      rw [hcons] at hl
      simpa using hl
    rw [rankCrops, hcons, assignRanks]
    simp only [List.map_cons]
    rw [ranksFrom_snd_of_chain_ne cs c 1 hch, ← hlen]
    rfl

/-- C3 witness: the theorem applied to a concrete one-crop district. -/
theorem ranker_dense_rank_assignment_witness :
    ([(⟨"Maize", 5, 5⟩ : CropScore)] ≠ []) ∧
    (∃ c rest, rankCrops [(⟨"Maize", 5, 5⟩ : CropScore)] = (c, 1) :: rest) :=
  ⟨by simp,
    (ranker_dense_rank_assignment [⟨"Maize", 5, 5⟩] (by simp)).2.2.2.1⟩

/-- C4: a zero/negative prior price or an NDVI outside `[-1, 1]` defaults
the affected dimension's sub-score to the neutral 5.0 and sets the
data-quality flag on the produced row; rows are never dropped (one output
row per input row, and each processed row appears in the output). -/
theorem data_quality_default_and_flag :
    ∀ (mcurve : ℚ → ℚ → ℚ) (vcurve : ℚ → ℚ) (rows : List RawCropRow),
      (processRows mcurve vcurve rows).length = rows.length ∧
      ∀ row ∈ rows,
        processRow mcurve vcurve row ∈ processRows mcurve vcurve rows ∧
        (row.price_prior ≤ 0 →
          (processRow mcurve vcurve row).market_score = 5 ∧
          (processRow mcurve vcurve row).data_quality_flag = true) ∧
        ((row.ndvi < -1 ∨ 1 < row.ndvi) →
          (processRow mcurve vcurve row).vegetation_score = 5 ∧
          (processRow mcurve vcurve row).data_quality_flag = true) := by
  intro mcurve vcurve rows
  refine ⟨List.length_map rows _,
    fun row hrow => ⟨?_, fun h => ?_, fun h => ?_⟩⟩
  · exact List.mem_map_of_mem _ hrow
  · constructor <;> simp [processRow, marketScoreChecked, if_pos h]
  · constructor <;> simp [processRow, vegScoreChecked, if_pos h]

/-- C4 witness: the theorem applied to one row with prior price 0 — its
market dimension is defaulted to 5 and the row is flagged. -/
theorem data_quality_default_and_flag_witness :
    (({ district := "Kampala", crop := "Maize", price_current := 1000,
        price_prior := 0, ndvi := 0 } : RawCropRow).price_prior ≤ 0) ∧
    (processRow (fun _ _ => 7) (fun _ => 7)
        { district := "Kampala", crop := "Maize", price_current := 1000,
          price_prior := 0, ndvi := 0 }).market_score = 5 ∧
    (processRow (fun _ _ => 7) (fun _ => 7)
        { district := "Kampala", crop := "Maize", price_current := 1000,
          price_prior := 0, ndvi := 0 }).data_quality_flag = true :=
  ⟨by norm_num,
    ((data_quality_default_and_flag (fun _ _ => 7) (fun _ => 7)
        [{ district := "Kampala", crop := "Maize", price_current := 1000,
           price_prior := 0, ndvi := 0 }]).2 _ (by simp)).2.1 (by norm_num)⟩

/-- C5: for sub-scores in `[0,10]` the weighted sum already lies in
`[0,10]`, the clamp is the identity there, the overall score lies in
`[0,10]`, and clamping always lands in `[0,10]`. -/
theorem scores_within_zero_ten :
    ∀ w v m : ℚ, 0 ≤ w → w ≤ 10 → 0 ≤ v → v ≤ 10 → 0 ≤ m → m ≤ 10 →
      (0 ≤ weightedSum w v m ∧ weightedSum w v m ≤ 10) ∧
      overallScore w v m = weightedSum w v m ∧
      (0 ≤ overallScore w v m ∧ overallScore w v m ≤ 10) ∧
      (∀ x : ℚ, 0 ≤ clampScore x ∧ clampScore x ≤ 10) := by
  intro w v m hw0 hw1 hv0 hv1 hm0 hm1
  have h0 := weightedSum_nonneg hw0 hv0 hm0
  have h10 := weightedSum_le_ten hw1 hv1 hm1
  have he := overallScore_eq_weightedSum hw0 hw1 hv0 hv1 hm0 hm1
  exact ⟨⟨h0, h10⟩, he, ⟨he ▸ h0, he ▸ h10⟩,
    fun x => ⟨le_max_left 0 _, max_le (by norm_num) (min_le_left _ _)⟩⟩

/-- C5 witness: the theorem applied at sub-scores (8, 7, 6). -/
theorem scores_within_zero_ten_witness :
    ((0:ℚ) ≤ 8 ∧ (8:ℚ) ≤ 10 ∧ (0:ℚ) ≤ 7 ∧ (7:ℚ) ≤ 10 ∧
      (0:ℚ) ≤ 6 ∧ (6:ℚ) ≤ 10) ∧
    (0 ≤ weightedSum 8 7 6 ∧ weightedSum 8 7 6 ≤ 10) ∧
    overallScore 8 7 6 = weightedSum 8 7 6 :=
  ⟨by norm_num,
    (scores_within_zero_ten 8 7 6 (by norm_num) (by norm_num) (by norm_num)
      (by norm_num) (by norm_num) (by norm_num)).1,
    (scores_within_zero_ten 8 7 6 (by norm_num) (by norm_num) (by norm_num)
      (by norm_num) (by norm_num) (by norm_num)).2.1⟩

/-- C6: the recommendation category is exactly "Highly Recommended" on
`[8, ∞)`, "Recommended" on `[6, 8)`, "Consider" on `[4, 6)` and
"Not Recommended" on `(-∞, 4)` — every lower bound inclusive. -/
theorem recommendation_category_thresholds :
    ∀ s : ℚ,
      (recommendationCategory s = "Highly Recommended" ↔ 8 ≤ s) ∧
      (recommendationCategory s = "Recommended" ↔ 6 ≤ s ∧ s < 8) ∧
      (recommendationCategory s = "Consider" ↔ 4 ≤ s ∧ s < 6) ∧
      (recommendationCategory s = "Not Recommended" ↔ s < 4) := by
  intro s
  unfold recommendationCategory
  split_ifs with h1 h2 h3 <;>
    refine ⟨?_, ?_, ?_, ?_⟩ <;>
    constructor <;>
    intro h <;>
    first
      | rfl
      | linarith
      | exact ⟨by linarith, by linarith⟩
      | exact absurd h (by decide)

/-- C7: the stored `price_change_pct` of a generated price record equals
`(current - prior) / prior * 100` rounded to two decimals, where
`current = base * seasonal` and `prior = current * trend` are the
simulated prices, and the divisor is nonzero. -/
theorem price_change_pct_stored_formula :
    ∀ (district crop : String) (base s f : ℚ),
      0 < base → 0 < s → 0 < f →
      base * s * f ≠ 0 ∧
      (mkPriceRecord district crop base s f).price_change_pct =
        round2 ((base * s - base * s * f) / (base * s * f) * 100) := by
  intro district crop base s f hb hs hf
  exact ⟨by positivity, rfl⟩

/-- C7 witness: the theorem applied to a concrete generated record. -/
theorem price_change_pct_stored_formula_witness :
    ((0:ℚ) < 800 ∧ (0:ℚ) < 1 ∧ (0:ℚ) < 1) ∧
    (mkPriceRecord "Kampala" "Maize" 800 1 1).price_change_pct =
      round2 ((800 * 1 - 800 * 1 * 1) / (800 * 1 * 1) * 100) :=
  ⟨by norm_num,
    (price_change_pct_stored_formula "Kampala" "Maize" 800 1 1
      (by norm_num) (by norm_num) (by norm_num)).2⟩

/-- C8: the core scoring-and-ranking computation is a pure function of
its input snapshot — two runs on identical input rows (ties included)
produce identical output rows and ranks. -/
theorem core_pipeline_deterministic :
    ∀ i1 i2 : List (String × ℚ × ℚ × ℚ), i1 = i2 → runCore i1 = runCore i2 :=
  fun _ _ h => congrArg runCore h

/-- C8 witness: the theorem applied to two runs on the same snapshot,
one that contains an exact tie. -/
theorem core_pipeline_deterministic_witness :
    runCore [("Maize", 5, 5, 5), ("Beans", 5, 5, 5)] =
      runCore [("Maize", 5, 5, 5), ("Beans", 5, 5, 5)] :=
  core_pipeline_deterministic _ _ rfl

/-- C9: every loader returns status "success" with `records_loaded`
equal to the number of records it generated — even when every per-row
step fails and zero records are produced; no error status exists. -/
theorem loaders_always_report_success :
    ∀ (wf : String → Option WeatherRecord)
      (pg : String → String → Option PriceRecord)
      (vf : String → Option VegetationRecord),
      ((load_weather_data wf).1.status = "success" ∧
        (load_weather_data wf).1.records_loaded =
          (load_weather_data wf).2.length) ∧
      ((load_price_data pg).1.status = "success" ∧
        (load_price_data pg).1.records_loaded =
          (load_price_data pg).2.length) ∧
      ((load_vegetation_data vf).1.status = "success" ∧
        (load_vegetation_data vf).1.records_loaded =
          (load_vegetation_data vf).2.length) ∧
      ((∀ d, wf d = none) →
        (load_weather_data wf).1.records_loaded = 0) ∧
      ((∀ d c, pg d c = none) →
        (load_price_data pg).1.records_loaded = 0) ∧
      ((∀ d, vf d = none) →
        (load_vegetation_data vf).1.records_loaded = 0) := by
  intro wf pg vf
  refine ⟨⟨rfl, rfl⟩, ⟨rfl, rfl⟩, ⟨rfl, rfl⟩,
    fun h => ?_, fun h => ?_, fun h => ?_⟩
  · simp [load_weather_data, DISTRICTS, h]
  · simp [load_price_data, DISTRICTS, CROPS, h]
  · simp [load_vegetation_data, DISTRICTS, h]

/-- C9 witness: the theorem applied to loaders whose every per-row step
fails — all three still report success with zero records. -/
theorem loaders_always_report_success_witness :
    (load_weather_data (fun _ => none)).1.status = "success" ∧
    (load_weather_data (fun _ => none)).1.records_loaded = 0 ∧
    (load_price_data (fun _ _ => none)).1.status = "success" ∧
    (load_price_data (fun _ _ => none)).1.records_loaded = 0 ∧
    (load_vegetation_data (fun _ => none)).1.status = "success" ∧
    (load_vegetation_data (fun _ => none)).1.records_loaded = 0 :=
  ⟨(loaders_always_report_success (fun _ => none) (fun _ _ => none)
      (fun _ => none)).1.1,
    (loaders_always_report_success (fun _ => none) (fun _ _ => none)
      (fun _ => none)).2.2.2.1 (fun _ => rfl),
    (loaders_always_report_success (fun _ => none) (fun _ _ => none)
      (fun _ => none)).2.1.1,
    (loaders_always_report_success (fun _ => none) (fun _ _ => none)
      (fun _ => none)).2.2.2.2.1 (fun _ _ => rfl),
    (loaders_always_report_success (fun _ => none) (fun _ _ => none)
      (fun _ => none)).2.2.1.1,
    (loaders_always_report_success (fun _ => none) (fun _ _ => none)
      (fun _ => none)).2.2.2.2.2 (fun _ => rfl)⟩

/-- C10 counterexample: at the attainable draw `trend = 0.9` (Python's
`random.uniform(0.9, 1.1)` can return its lower endpoint) the
pre-rounding percent change for Maize at base 800, seasonal factor 1,
equals `100/9` exactly, so it is NOT strictly below `100/9` as the claim
states. -/
theorem price_trend_strict_bound_counterexample :
    ("Maize", (800:ℚ), (1500:ℚ)) ∈ CROPS ∧
    (800:ℚ) ≤ 800 ∧ (800:ℚ) ≤ 1500 ∧
    (4/5:ℚ) ≤ 1 ∧ (1:ℚ) ≤ 6/5 ∧ (9/10:ℚ) ≤ 9/10 ∧ (9/10:ℚ) ≤ 11/10 ∧
    rawPctChange 800 1 (9/10) = 100/9 ∧
    ¬ rawPctChange 800 1 (9/10) < 100/9 := by
  refine ⟨by simp [CROPS], by norm_num, by norm_num, by norm_num,
    by norm_num, by norm_num, by norm_num, by norm_num [rawPctChange], ?_⟩
  rw [show rawPctChange 800 1 (9/10) = 100/9 by norm_num [rawPctChange]]
  exact lt_irrefl _

/-- C10 (amended): for every crop of the configured table and draws in
the documented ranges, the prior price (raw and stored) is strictly
positive — so the percent-change division never divides by zero — and
the pre-rounding percent change lies in the CLOSED interval
`[-100/11, 100/9]` (the endpoints are attained at the boundary draws). -/
theorem price_trend_bounds_amended :
    ∀ entry ∈ CROPS, ∀ (district : String) (base s f : ℚ),
      entry.2.1 ≤ base → base ≤ entry.2.2 →
      4/5 ≤ s → s ≤ 6/5 → 9/10 ≤ f → f ≤ 11/10 →
      0 < base * s * f ∧
      0 < (mkPriceRecord district entry.1 base s f).price_7days_ago ∧
      -(100/11) ≤ rawPctChange base s f ∧ rawPctChange base s f ≤ 100/9 := by
  intro entry hmem district base s f hlo hhi hs1 hs2 hf1 hf2
  have h300 : (300 : ℚ) ≤ entry.2.1 := by
    fin_cases hmem <;> norm_num
  have hb : (300 : ℚ) ≤ base := le_trans h300 hlo
  have hbpos : (0 : ℚ) < base := by linarith
  have hspos : (0 : ℚ) < s := by linarith
  have hfpos : (0 : ℚ) < f := by linarith
  have hc : (0 : ℚ) < base * s := mul_pos hbpos hspos
  have hcf : (0 : ℚ) < base * s * f := mul_pos hc hfpos
  have h240 : (240 : ℚ) ≤ base * s := by
    nlinarith [mul_nonneg (show (0:ℚ) ≤ base - 300 by linarith)
      (show (0:ℚ) ≤ s - 4/5 by linarith)]
  have h216 : (216 : ℚ) ≤ base * s * f := by
    nlinarith [mul_nonneg (show (0:ℚ) ≤ base * s - 240 by linarith)
      (show (0:ℚ) ≤ f - 9/10 by linarith)]
  refine ⟨hcf, ?_, ?_, ?_⟩
  · exact round2_pos (by linarith)
  · rw [rawPctChange, div_mul_eq_mul_div, le_div_iff₀ hcf]
    nlinarith [mul_nonneg hc.le (show (0:ℚ) ≤ 11 - 10 * f by linarith)]
  · rw [rawPctChange, div_mul_eq_mul_div, div_le_iff₀ hcf]
    nlinarith [mul_nonneg hc.le (show (0:ℚ) ≤ 10 * f - 9 by linarith)]

/-- C10 witness: the amended theorem applied to Maize at base 800 with
both random factors 1. -/
theorem price_trend_bounds_amended_witness :
    (("Maize", (800:ℚ), (1500:ℚ)) ∈ CROPS ∧
      (800:ℚ) ≤ 800 ∧ (800:ℚ) ≤ 1500 ∧ (4/5:ℚ) ≤ 1 ∧ (1:ℚ) ≤ 6/5 ∧
      (9/10:ℚ) ≤ 1 ∧ (1:ℚ) ≤ 11/10) ∧
    (0:ℚ) < 800 * 1 * 1 ∧
    0 < (mkPriceRecord "Kampala" "Maize" 800 1 1).price_7days_ago ∧
    -(100/11) ≤ rawPctChange 800 1 1 ∧ rawPctChange 800 1 1 ≤ 100/9 :=
  ⟨⟨by simp [CROPS], by norm_num, by norm_num, by norm_num, by norm_num,
      by norm_num, by norm_num⟩,
    price_trend_bounds_amended ("Maize", (800:ℚ), (1500:ℚ))
      (by simp [CROPS]) "Kampala" 800 1 1 (by norm_num) (by norm_num)
      (by norm_num) (by norm_num) (by norm_num) (by norm_num)⟩

end SmartShamba
